import Mathlib

/-!
Verification of the per-example script pattern of the
"End-to-End AI for Science" bootcamp notebooks.

The repository's own logic consists of symbolic equation builders
(`ProjectileEquation`, `SpringMass`), numpy-based sample-set/validator
construction, constraint target dictionaries, and a result
loader/plotter.  We embed those parts shallowly:

* sympy expressions over the single independent variable `t` become the
  inductive type `SMExpr`; `Function(name)(t)` is `SMExpr.func name`,
  `Number(q)` is `SMExpr.const q`, `e.diff(t)` is `SMExpr.diff e`.
  A Python object that the coefficient dispatch leaves untouched
  (neither a `str` nor an `int`/`float`) is kept as `SMExpr.raw tag`.
* Python scalar values passed as coefficients become `PyVal`; Python
  `float` literals are modelled as exact rationals/reals.
* numpy arrays become `List ℚ` (grids) and `List ℝ` (value arrays);
  `np.arange` is modelled by `arange`.
* The analytic meaning of an emitted expression is `SMExpr.eval`,
  interpreting `diff` by Mathlib's `deriv`.
-/

/-- A Python scalar value, as the `SpringMass.__init__` coefficient
dispatch distinguishes them: `str`, `int`, `float`, or anything else
(`bool`, `complex`, numpy scalars, ...), the latter kept abstract as a
tag. -/
inductive PyVal where
  | pyStr (s : String)
  | pyInt (n : ℤ)
  | pyFloat (q : ℚ)
  | pyOther (tag : String)
deriving DecidableEq, Repr

/-- A sympy expression in the single independent variable `t`, as the
notebooks build them: numeric constants (`Number`), the symbol `t`,
applied unknown functions (`Function(name)(t)`), unevaluated
derivatives (`.diff(t)`), sums, differences, products, and raw
non-dispatched Python objects embedded in an expression. -/
inductive SMExpr where
  | const (q : ℚ)
  | var
  | func (name : String)
  | raw (tag : String)
  | diff (e : SMExpr)
  | add (a b : SMExpr)
  | sub (a b : SMExpr)
  | mul (a b : SMExpr)
deriving DecidableEq, Repr

/-- The coefficient dispatch of `SpringMass.__init__`:
`if type(c) is str: c = Function(c)(t)`
`elif type(c) in [float, int]: c = Number(c)`
(no `else` branch: any other value is left unchanged). -/
def pyCoef : PyVal → SMExpr
  | .pyStr s => .func s
  | .pyInt n => .const (n : ℚ)
  | .pyFloat q => .const q
  | .pyOther tag => .raw tag

/-- The three residual expressions stored in `self.equations` by
`SpringMass.__init__`. -/
structure SpringMassEqs where
  ode_x1 : SMExpr
  ode_x2 : SMExpr
  ode_x3 : SMExpr
deriving DecidableEq, Repr

/-- The equation template of `SpringMass.__init__` once the seven
coefficients have been dispatched to expressions:
`ode_x1 = m1 * (x1.diff(t)).diff(t) + k1 * x1 - k2 * (x2 - x1)`,
`ode_x2 = m2 * (x2.diff(t)).diff(t) + k2 * (x2 - x1) - k3 * (x3 - x2)`,
`ode_x3 = m3 * (x3.diff(t)).diff(t) + k3 * (x3 - x2) + k4 * x3`. -/
def smTemplate (K1 K2 K3 K4 M1 M2 M3 : SMExpr) : SpringMassEqs :=
  { ode_x1 := .sub
      (.add (.mul M1 (.diff (.diff (.func "x1")))) (.mul K1 (.func "x1")))
      (.mul K2 (.sub (.func "x2") (.func "x1")))
    ode_x2 := .sub
      (.add (.mul M2 (.diff (.diff (.func "x2"))))
        (.mul K2 (.sub (.func "x2") (.func "x1"))))
      (.mul K3 (.sub (.func "x3") (.func "x2")))
    ode_x3 := .add
      (.add (.mul M3 (.diff (.diff (.func "x3"))))
        (.mul K3 (.sub (.func "x3") (.func "x2"))))
      (.mul K4 (.func "x3")) }

/-- Builder `SpringMass.__init__(k, m)`: dispatch each of the seven coefficients
and build the three residual expressions. -/
def springMass (k : PyVal × PyVal × PyVal × PyVal)
    (m : PyVal × PyVal × PyVal) : SpringMassEqs :=
  smTemplate (pyCoef k.1) (pyCoef k.2.1) (pyCoef k.2.2.1) (pyCoef k.2.2.2)
    (pyCoef m.1) (pyCoef m.2.1) (pyCoef m.2.2)

/-- The two residual expressions stored in `self.equations` by
`ProjectileEquation.__init__`:
`ode_x = x.diff(t,2)`, `ode_y = y.diff(t,2)`. -/
structure ProjectileEqs where
  ode_x : SMExpr
  ode_y : SMExpr
deriving DecidableEq, Repr

/-- Builder `ProjectileEquation.__init__`. -/
def projectileEquation : ProjectileEqs :=
  { ode_x := .diff (.diff (.func "x"))
    ode_y := .diff (.diff (.func "y")) }

/-- Subterm test on expression trees: `occurs p e` holds when `p`
appears as a subexpression of `e`. -/
def SMExpr.occurs (p : SMExpr) : SMExpr → Bool
  | .const q => p = .const q
  | .var => p = .var
  | .func s => p = .func s
  | .raw tag => p = .raw tag
  | .diff e => p = .diff e || p.occurs e
  | .add a b => p = .add a b || p.occurs a || p.occurs b
  | .sub a b => p = .sub a b || p.occurs a || p.occurs b
  | .mul a b => p = .mul a b || p.occurs a || p.occurs b

/-- Names of all applied unknown functions occurring in an expression. -/
def SMExpr.funcNames : SMExpr → List String
  | .func s => [s]
  | .diff e => e.funcNames
  | .add a b => a.funcNames ++ b.funcNames
  | .sub a b => a.funcNames ++ b.funcNames
  | .mul a b => a.funcNames ++ b.funcNames
  | _ => []

/-- Values of all numeric constants occurring in an expression. -/
def SMExpr.constVals : SMExpr → List ℚ
  | .const q => [q]
  | .diff e => e.constVals
  | .add a b => a.constVals ++ b.constVals
  | .sub a b => a.constVals ++ b.constVals
  | .mul a b => a.constVals ++ b.constVals
  | _ => []

/-- Tags of all raw (non-dispatched) Python objects embedded in an
expression. -/
def SMExpr.rawTags : SMExpr → List String
  | .raw tag => [tag]
  | .diff e => e.rawTags
  | .add a b => a.rawTags ++ b.rawTags
  | .sub a b => a.rawTags ++ b.rawTags
  | .mul a b => a.rawTags ++ b.rawTags
  | _ => []

/-- Analytic interpretation of an emitted expression: unknown functions
are read from the environment `env`, raw embedded objects from `renv`,
and the unevaluated symbolic derivative is interpreted by Mathlib's
`deriv`. -/
noncomputable def SMExpr.eval (env renv : String → ℝ → ℝ) : SMExpr → ℝ → ℝ
  | .const q => fun _ => (q : ℝ)
  | .var => fun t => t
  | .func s => env s
  | .raw tag => renv tag
  | .diff e => deriv (e.eval env renv)
  | .add a b => fun t => a.eval env renv t + b.eval env renv t
  | .sub a b => fun t => a.eval env renv t - b.eval env renv t
  | .mul a b => fun t => a.eval env renv t * b.eval env renv t

/-! ## Grids and sample sets

numpy grids are modelled over exact rationals (Python float literals
such as `0.01` are read at their decimal value), value arrays over the
reals. -/

/-- Model of `np.arange(start, stop, step)` for positive step: the list
`start, start + step, ...` of length `⌈(stop - start) / step⌉`. -/
def arange (start stop step : ℚ) : List ℚ :=
  (List.range (⌈(stop - start) / step⌉).toNat).map
    (fun i : ℕ => start + step * (i : ℚ))

/-- A named-array mapping (a Python `dict` of numpy arrays), as used
for `invar_numpy` / `outvar_numpy`: association list name → array. -/
abbrev ArrayDict := List (String × List ℝ)

/-- Projectile `run`: `v_o = 40.0`. -/
def v_o : ℝ := 40

/-- Projectile `run`: `theta = np.pi/3`. -/
noncomputable def theta : ℝ := Real.pi / 3

/-- Projectile `run`: `delta_T = 0.01; t_val = np.arange(0., 5., delta_T)`
(then reshaped to a column, which the list model keeps flat). -/
def t_val : List ℚ := arange 0 5 (1/100)

/-- The projectile validator input grid as real numbers (`T_val`). -/
noncomputable def T_val : List ℝ := t_val.map (fun q : ℚ => (q : ℝ))

/-- Projectile `run`: `X_val = v_o*np.cos(theta)*T_val`. -/
noncomputable def X_val : List ℝ := T_val.map (fun t => v_o * Real.cos theta * t)

/-- Projectile `run`: `Y_val = v_o*np.sin(theta)*T_val - 0.5*9.81*(T_val**2)`. -/
noncomputable def Y_val : List ℝ :=
  T_val.map (fun t => v_o * Real.sin theta * t - 0.5 * 9.81 * t ^ 2)

/-- Projectile `run`: `invar_numpy = {"t": T_val}`. -/
noncomputable def projInvarNumpy : ArrayDict := [("t", T_val)]

/-- Projectile `run`: `outvar_numpy = {"x": X_val, "y": Y_val}`. -/
noncomputable def projOutvarNumpy : ArrayDict := [("x", X_val), ("y", Y_val)]

/-- Spring-mass closed-form solution, first mass:
`x1 = (1/6)*np.cos(t) + (1/2)*np.cos(np.sqrt(3)*t) + (1/3)*np.cos(2*t)`. -/
noncomputable def smX1 (t : ℝ) : ℝ :=
  (1/6) * Real.cos t + (1/2) * Real.cos (Real.sqrt 3 * t)
    + (1/3) * Real.cos (2 * t)

/-- Spring-mass closed-form solution, second mass:
`x2 = (2/6)*np.cos(t) + (0/2)*np.cos(np.sqrt(3)*t) - (1/3)*np.cos(2*t)`. -/
noncomputable def smX2 (t : ℝ) : ℝ :=
  (2/6) * Real.cos t + (0/2) * Real.cos (Real.sqrt 3 * t)
    - (1/3) * Real.cos (2 * t)

/-- Spring-mass closed-form solution, third mass:
`x3 = (1/6)*np.cos(t) - (1/2)*np.cos(np.sqrt(3)*t) + (1/3)*np.cos(2*t)`. -/
noncomputable def smX3 (t : ℝ) : ℝ :=
  (1/6) * Real.cos t - (1/2) * Real.cos (Real.sqrt 3 * t)
    + (1/3) * Real.cos (2 * t)

/-- Spring-mass forward `run`: `t_max = 10.0; deltaT = 0.001;`
`t = np.arange(0, t_max, deltaT)`. -/
def smFwdGrid : List ℚ := arange 0 10 (1/1000)

/-- Spring-mass forward validator input `invar_numpy = {"t": t}`. -/
noncomputable def smFwdInvarNumpy : ArrayDict :=
  [("t", smFwdGrid.map (fun q : ℚ => (q : ℝ)))]

/-- Spring-mass forward validator targets `outvar_numpy`:
the closed-form solution evaluated on the grid. -/
noncomputable def smFwdOutvarNumpy : ArrayDict :=
  [("x1", smFwdGrid.map (fun q : ℚ => smX1 (q : ℝ))),
   ("x2", smFwdGrid.map (fun q : ℚ => smX2 (q : ℝ))),
   ("x3", smFwdGrid.map (fun q : ℚ => smX3 (q : ℝ)))]

/-- Spring-mass inverse `run`: `t_max = 10.0; deltaT = 0.01;`
`t = np.arange(0, t_max, deltaT)`. -/
def smInvGrid : List ℚ := arange 0 10 (1/100)

/-- Spring-mass inverse data input `invar_numpy = {"t": t}`. -/
noncomputable def smInvInvarNumpy : ArrayDict :=
  [("t", smInvGrid.map (fun q : ℚ => (q : ℝ)))]

/-- Spring-mass inverse data targets `outvar_numpy`: the closed-form
solution on the grid, then
`outvar_numpy.update({"ode_x1": np.full_like(invar_numpy["t"], 0)})`
and likewise for `ode_x2`, `ode_x3`. -/
noncomputable def smInvOutvarNumpy : ArrayDict :=
  [("x1", smInvGrid.map (fun q : ℚ => smX1 (q : ℝ))),
   ("x2", smInvGrid.map (fun q : ℚ => smX2 (q : ℝ))),
   ("x3", smInvGrid.map (fun q : ℚ => smX3 (q : ℝ))),
   ("ode_x1", List.replicate (smInvGrid.map (fun q : ℚ => (q : ℝ))).length 0),
   ("ode_x2", List.replicate (smInvGrid.map (fun q : ℚ => (q : ℝ))).length 0),
   ("ode_x3", List.replicate (smInvGrid.map (fun q : ℚ => (q : ℝ))).length 0)]

/-! ## Constraint target dictionaries -/

/-- Projectile IC constraint:
`outvar = {"x": 0.0, "y": 0.0, "x__t": v_o*cos(theta), "y__t": v_o*sin(theta)}`. -/
noncomputable def projICOutvar : List (String × ℝ) :=
  [("x", 0), ("y", 0), ("x__t", v_o * Real.cos theta),
   ("y__t", v_o * Real.sin theta)]

/-- Projectile interior constraint: `outvar = {"ode_x": 0.0, "ode_y": -9.81}`. -/
def projInteriorOutvar : List (String × ℝ) :=
  [("ode_x", 0), ("ode_y", -9.81)]

/-- Spring-mass IC constraint (identical in the forward and inverse
scripts): `outvar = {"x1": 1.0, "x2": 0, "x3": 0, "x1__t": 0, "x2__t": 0,
"x3__t": 0}`. -/
def smICOutvar : List (String × ℝ) :=
  [("x1", 1), ("x2", 0), ("x3", 0), ("x1__t", 0), ("x2__t", 0), ("x3__t", 0)]

/-- Spring-mass forward interior constraint:
`outvar = {"ode_x1": 0.0, "ode_x2": 0.0, "ode_x3": 0.0}`. -/
def smInteriorOutvar : List (String × ℝ) :=
  [("ode_x1", 0), ("ode_x2", 0), ("ode_x3", 0)]

/-! ## Result loader and plotters -/

/-- The result-array bundle persisted by the trainer and read back by
`np.load(... + "validator.npz")`: a named-array mapping. -/
abbrev Bundle := List (String × List ℝ)

/-- Model of `np.load(path)` against a file system `fs` (mapping existing paths
to bundle contents): raises `FileNotFoundError` when the path does not
exist, otherwise returns the stored bundle. -/
def npLoad (fs : String → Option Bundle) (path : String) :
    Except String Bundle :=
  match fs path with
  | none => .error ("FileNotFoundError: No such file or directory: " ++ path)
  | some b => .ok b

/-- Path loaded by the projectile plotting cell:
`network_dir = "./outputs/projectile/validators/"; np.load(network_dir + "validator.npz")`. -/
def projValidatorPath : String := "./outputs/projectile/validators/" ++ "validator.npz"

/-- Path loaded by the spring-mass plotting cell:
`base_dir = "outputs/spring_mass_solver/validators/"; np.load(base_dir + "validator.npz")`. -/
def smValidatorPath : String := "outputs/spring_mass_solver/validators/" ++ "validator.npz"

/-- One plotted pred/true curve pair: (dependent-variable label,
predicted-array key, true-array key). -/
structure CurvePair where
  label : String
  predKey : String
  trueKey : String
deriving DecidableEq, Repr

/-- The projectile plotting cell: two subplots, each plotting the
predicted and true curve of one dependent variable
(`pred_x`/`true_x` in subplot 1, `pred_y`/`true_y` in subplot 2). -/
def projectilePlot : List CurvePair :=
  [{ label := "x", predKey := "pred_x", trueKey := "true_x" },
   { label := "y", predKey := "pred_y", trueKey := "true_y" }]

/-- The spring-mass plotting cell: one axes with a true/pred curve pair
per dependent variable (`true_x1`/`pred_x1`, ...). -/
def springMassPlot : List CurvePair :=
  [{ label := "x1", predKey := "pred_x1", trueKey := "true_x1" },
   { label := "x2", predKey := "pred_x2", trueKey := "true_x2" },
   { label := "x3", predKey := "pred_x3", trueKey := "true_x3" }]

/-- Modelled from the spec: the point sampler of the external
framework's `PointwiseBoundaryConstraint` is not part of this
repository; the spec states that a sample set whose parameterization
pins the independent variable to a single value yields that value for
every sampled row.  Sampling `batch` points of a `Point1D` geometry
under `parameterization = {t: 0.0}` therefore yields the constant-zero
`t` column. -/
def icSampleT (batch : ℕ) : List ℚ := List.replicate batch 0

/-! ## Derivatives of the closed-form spring-mass solution -/

/-- Transport a `HasDerivAt` fact along an equality of derivative
values. -/
theorem hasDerivAt_of_eq {f : ℝ → ℝ} {v w t : ℝ} (h : HasDerivAt f v t)
    (hw : w = v) : HasDerivAt f w t := by
  rw [hw]; exact h

/-- Derivative of `cos (a * t)`. -/
theorem hasDerivAt_cos_mul (a t : ℝ) :
    HasDerivAt (fun s : ℝ => Real.cos (a * s)) (-(a * Real.sin (a * t))) t := by
  have hlin : HasDerivAt (fun s : ℝ => a * s) a t :=
    hasDerivAt_of_eq ((hasDerivAt_id t).const_mul a) (by ring)
  exact hasDerivAt_of_eq ((Real.hasDerivAt_cos (a * t)).comp t hlin) (by ring)

/-- Derivative of `sin (a * t)`. -/
theorem hasDerivAt_sin_mul (a t : ℝ) :
    HasDerivAt (fun s : ℝ => Real.sin (a * s)) (a * Real.cos (a * t)) t := by
  have hlin : HasDerivAt (fun s : ℝ => a * s) a t :=
    hasDerivAt_of_eq ((hasDerivAt_id t).const_mul a) (by ring)
  exact hasDerivAt_of_eq ((Real.hasDerivAt_sin (a * t)).comp t hlin) (by ring)

/-- First derivative of `smX1`. -/
noncomputable def smX1d (t : ℝ) : ℝ :=
  -((1/6) * Real.sin t + (Real.sqrt 3 / 2) * Real.sin (Real.sqrt 3 * t)
    + (2/3) * Real.sin (2 * t))

/-- Second derivative of `smX1` (using `√3 * √3 = 3`). -/
noncomputable def smX1dd (t : ℝ) : ℝ :=
  -((1/6) * Real.cos t + (3/2) * Real.cos (Real.sqrt 3 * t)
    + (4/3) * Real.cos (2 * t))

/-- First derivative of `smX2`. -/
noncomputable def smX2d (t : ℝ) : ℝ :=
  -((2/6) * Real.sin t) + (2/3) * Real.sin (2 * t)

/-- Second derivative of `smX2`. -/
noncomputable def smX2dd (t : ℝ) : ℝ :=
  -((2/6) * Real.cos t) + (4/3) * Real.cos (2 * t)

/-- First derivative of `smX3`. -/
noncomputable def smX3d (t : ℝ) : ℝ :=
  -((1/6) * Real.sin t) + (Real.sqrt 3 / 2) * Real.sin (Real.sqrt 3 * t)
    - (2/3) * Real.sin (2 * t)

/-- Second derivative of `smX3` (using `√3 * √3 = 3`). -/
noncomputable def smX3dd (t : ℝ) : ℝ :=
  -((1/6) * Real.cos t) + (3/2) * Real.cos (Real.sqrt 3 * t)
    - (4/3) * Real.cos (2 * t)

theorem smX1_hasDeriv (t : ℝ) : HasDerivAt smX1 (smX1d t) t := by
  have h1 := (Real.hasDerivAt_cos t).const_mul (1/6 : ℝ)
  have h2 := (hasDerivAt_cos_mul (Real.sqrt 3) t).const_mul (1/2 : ℝ)
  have h3 := (hasDerivAt_cos_mul 2 t).const_mul (1/3 : ℝ)
  exact hasDerivAt_of_eq ((h1.add h2).add h3) (by unfold smX1d; ring)

theorem smX2_hasDeriv (t : ℝ) : HasDerivAt smX2 (smX2d t) t := by
  have h1 := (Real.hasDerivAt_cos t).const_mul (2/6 : ℝ)
  have h2 := (hasDerivAt_cos_mul (Real.sqrt 3) t).const_mul (0/2 : ℝ)
  have h3 := (hasDerivAt_cos_mul 2 t).const_mul (1/3 : ℝ)
  exact hasDerivAt_of_eq ((h1.add h2).sub h3) (by unfold smX2d; ring)

theorem smX3_hasDeriv (t : ℝ) : HasDerivAt smX3 (smX3d t) t := by
  have h1 := (Real.hasDerivAt_cos t).const_mul (1/6 : ℝ)
  have h2 := (hasDerivAt_cos_mul (Real.sqrt 3) t).const_mul (1/2 : ℝ)
  have h3 := (hasDerivAt_cos_mul 2 t).const_mul (1/3 : ℝ)
  exact hasDerivAt_of_eq ((h1.sub h2).add h3) (by unfold smX3d; ring)

theorem smX1d_hasDeriv (t : ℝ) : HasDerivAt smX1d (smX1dd t) t := by
  have h1 := (Real.hasDerivAt_sin t).const_mul (1/6 : ℝ)
  have h2 := (hasDerivAt_sin_mul (Real.sqrt 3) t).const_mul (Real.sqrt 3 / 2)
  have h3 := (hasDerivAt_sin_mul 2 t).const_mul (2/3 : ℝ)
  have hs : Real.sqrt 3 * Real.sqrt 3 = 3 := Real.mul_self_sqrt (by norm_num)
  refine hasDerivAt_of_eq ((h1.add h2).add h3).neg ?_
  unfold smX1dd
  linear_combination (Real.cos (Real.sqrt 3 * t) / 2) * hs

theorem smX2d_hasDeriv (t : ℝ) : HasDerivAt smX2d (smX2dd t) t := by
  have h1 := ((Real.hasDerivAt_sin t).const_mul (2/6 : ℝ)).neg
  have h2 := (hasDerivAt_sin_mul 2 t).const_mul (2/3 : ℝ)
  exact hasDerivAt_of_eq (h1.add h2) (by unfold smX2dd; ring)

theorem smX3d_hasDeriv (t : ℝ) : HasDerivAt smX3d (smX3dd t) t := by
  have h1 := ((Real.hasDerivAt_sin t).const_mul (1/6 : ℝ)).neg
  have h2 := (hasDerivAt_sin_mul (Real.sqrt 3) t).const_mul (Real.sqrt 3 / 2)
  have h3 := (hasDerivAt_sin_mul 2 t).const_mul (2/3 : ℝ)
  have hs : Real.sqrt 3 * Real.sqrt 3 = 3 := Real.mul_self_sqrt (by norm_num)
  refine hasDerivAt_of_eq ((h1.add h2).sub h3) ?_
  unfold smX3dd
  linear_combination (-(Real.cos (Real.sqrt 3 * t) / 2)) * hs

theorem deriv_smX1 : deriv smX1 = smX1d := funext fun t => (smX1_hasDeriv t).deriv

theorem deriv_smX2 : deriv smX2 = smX2d := funext fun t => (smX2_hasDeriv t).deriv

theorem deriv_smX3 : deriv smX3 = smX3d := funext fun t => (smX3_hasDeriv t).deriv

theorem deriv_smX1d : deriv smX1d = smX1dd :=
  funext fun t => (smX1d_hasDeriv t).deriv

theorem deriv_smX2d : deriv smX2d = smX2dd :=
  funext fun t => (smX2d_hasDeriv t).deriv

theorem deriv_smX3d : deriv smX3d = smX3dd :=
  funext fun t => (smX3d_hasDeriv t).deriv

/-- The environment substituting the closed-form solution for the three
unknown functions. -/
noncomputable def smEnv (s : String) : ℝ → ℝ :=
  if s = "x1" then smX1 else if s = "x2" then smX2
  else if s = "x3" then smX3 else fun _ => 0

/-- The all-zero environment (also used for raw objects, of which the
notebook equations have none). -/
def zeroEnv : String → ℝ → ℝ := fun _ _ => 0

theorem zeroEnv_app (s : String) : zeroEnv s = fun _ => 0 := rfl

theorem smEnv_x1 : smEnv "x1" = smX1 := rfl

theorem smEnv_x2 : smEnv "x2" = smX2 := rfl

theorem smEnv_x3 : smEnv "x3" = smX3 := rfl

/-- The forward spring-mass instantiation:
`SpringMass(k=(2, 1, 1, 2), m=(1, 1, 1))`. -/
def fwdEqs : SpringMassEqs :=
  springMass (.pyInt 2, .pyInt 1, .pyInt 1, .pyInt 2)
    (.pyInt 1, .pyInt 1, .pyInt 1)

/-- The inverse spring-mass instantiation:
`SpringMass(k=(2, 1, 1, "k4"), m=("m1", 1, 1))`. -/
def invEqs : SpringMassEqs :=
  springMass (.pyInt 2, .pyInt 1, .pyInt 1, .pyStr "k4")
    (.pyStr "m1", .pyInt 1, .pyInt 1)

/-- C2: substituting the closed-form solution into the three residual
expressions emitted for `k=(2,1,1,2)`, `m=(1,1,1)` gives identically
zero, for every `t`. -/
theorem spring_mass_residuals_vanish_on_solution (t : ℝ) :
    fwdEqs.ode_x1.eval smEnv zeroEnv t = 0 ∧
    fwdEqs.ode_x2.eval smEnv zeroEnv t = 0 ∧
    fwdEqs.ode_x3.eval smEnv zeroEnv t = 0 := by
  have e1 : fwdEqs = smTemplate (.const 2) (.const 1) (.const 1) (.const 2)
      (.const 1) (.const 1) (.const 1) := rfl
  refine ⟨?_, ?_, ?_⟩ <;>
  · rw [e1]
    simp only [smTemplate, SMExpr.eval, smEnv_x1, smEnv_x2, smEnv_x3,
      deriv_smX1, deriv_smX1d, deriv_smX2, deriv_smX2d, deriv_smX3,
      deriv_smX3d]
    simp only [smX1, smX2, smX3, smX1dd, smX2dd, smX3dd]
    push_cast
    ring

theorem arange_length (start stop step : ℚ) :
    (arange start stop step).length = (⌈(stop - start) / step⌉).toNat := by
  unfold arange
  rw [List.length_map, List.length_range]

theorem arange_ceil_eq (start stop step : ℚ) (n : ℕ)
    (h : (stop - start) / step = (n : ℚ)) :
    (⌈(stop - start) / step⌉).toNat = n := by
  rw [h, Int.ceil_natCast, Int.toNat_natCast]

theorem t_val_length : t_val.length = 500 := by
  unfold t_val
  rw [arange_length]
  exact arange_ceil_eq 0 5 (1/100) 500 (by norm_num)

theorem smFwdGrid_length : smFwdGrid.length = 10000 := by
  unfold smFwdGrid
  rw [arange_length]
  exact arange_ceil_eq 0 10 (1/1000) 10000 (by norm_num)

theorem smInvGrid_length : smInvGrid.length = 1000 := by
  unfold smInvGrid
  rw [arange_length]
  exact arange_ceil_eq 0 10 (1/100) 1000 (by norm_num)

theorem arange_head (start stop step : ℚ)
    (h : 0 < (⌈(stop - start) / step⌉).toNat) :
    (arange start stop step).head? = some start := by
  unfold arange
  obtain ⟨m, hm⟩ : ∃ m, (⌈(stop - start) / step⌉).toNat = m + 1 :=
    ⟨_, (Nat.succ_pred_eq_of_pos h).symm⟩
  rw [hm, List.range_succ_eq_map]
  simp

/-- C10: the closed-form solution is consistent with the
initial-condition targets: at `t = 0` it takes the values `1, 0, 0`,
its time derivatives vanish, the IC target dictionary of both setups is
exactly those values, and the first row (the `t = 0` row) of each
closed-form target array in the forward validator set and the inverse
data set is that same initial value. -/
theorem spring_ic_matches_closed_form :
    smX1 0 = 1 ∧ smX2 0 = 0 ∧ smX3 0 = 0 ∧
    deriv smX1 0 = 0 ∧ deriv smX2 0 = 0 ∧ deriv smX3 0 = 0 ∧
    smICOutvar = [("x1", smX1 0), ("x2", smX2 0), ("x3", smX3 0),
      ("x1__t", deriv smX1 0), ("x2__t", deriv smX2 0),
      ("x3__t", deriv smX3 0)] ∧
    smFwdOutvarNumpy.map (fun p => p.2.head?) = [some 1, some 0, some 0] ∧
    smInvOutvarNumpy.map (fun p => p.2.head?)
      = [some 1, some 0, some 0, some 0, some 0, some 0] := by
  have h1 : smX1 0 = 1 := by
    simp [smX1, mul_zero, Real.cos_zero]; norm_num
  have h2 : smX2 0 = 0 := by
    simp [smX2, mul_zero, Real.cos_zero]; norm_num
  have h3 : smX3 0 = 0 := by
    simp [smX3, mul_zero, Real.cos_zero]; norm_num
  have h4 : deriv smX1 0 = 0 := by
    rw [deriv_smX1]; simp [smX1d, mul_zero, Real.sin_zero]
  have h5 : deriv smX2 0 = 0 := by
    rw [deriv_smX2]; simp [smX2d, mul_zero, Real.sin_zero]
  have h6 : deriv smX3 0 = 0 := by
    rw [deriv_smX3]; simp [smX3d, mul_zero, Real.sin_zero]
  have hf : smFwdGrid.head? = some 0 := by
    unfold smFwdGrid
    refine arange_head 0 10 (1/1000) ?_
    rw [arange_ceil_eq 0 10 (1/1000) 10000 (by norm_num)]
    norm_num
  have hi : smInvGrid.head? = some 0 := by
    unfold smInvGrid
    refine arange_head 0 10 (1/100) ?_
    rw [arange_ceil_eq 0 10 (1/100) 1000 (by norm_num)]
    norm_num
  have hil : smInvGrid.length ≠ 0 := by
    rw [smInvGrid_length]; norm_num
  refine ⟨h1, h2, h3, h4, h5, h6, by simp [smICOutvar, h1, h2, h3, h4, h5, h6],
    ?_, ?_⟩
  · simp only [smFwdOutvarNumpy, List.map_cons, List.map_nil,
      List.head?_map, hf, Option.map_some']
    push_cast
    rw [h1, h2, h3]
  · simp only [smInvOutvarNumpy, List.map_cons, List.map_nil,
      List.head?_map, hi, Option.map_some', List.length_map]
    rw [List.head?_replicate]
    push_cast
    rw [h1, h2, h3]
    simp [hil]

/-- C5: each emitted residual is the governing equation with all terms
moved to one side (its value is LHS minus RHS of the notebook's model
equations, and it vanishes identically when all unknown functions are
zero, so the homogeneous equation reads `residual = 0`); the only
nonzero source term, gravity, enters through the constraint target
`"ode_y": -9.81`, while the residual `ode_y` itself is the bare second
derivative. -/
theorem residuals_homogeneous_and_source_via_target :
    (∀ env renv : String → ℝ → ℝ, ∀ t : ℝ,
      fwdEqs.ode_x1.eval env renv t
        = 1 * deriv (deriv (env "x1")) t
          - (-(2 * env "x1" t) + 1 * (env "x2" t - env "x1" t)) ∧
      fwdEqs.ode_x2.eval env renv t
        = 1 * deriv (deriv (env "x2")) t
          - (-(1 * (env "x2" t - env "x1" t))
            + 1 * (env "x3" t - env "x2" t)) ∧
      fwdEqs.ode_x3.eval env renv t
        = 1 * deriv (deriv (env "x3")) t
          - (-(1 * (env "x3" t - env "x2" t)) - 2 * env "x3" t) ∧
      projectileEquation.ode_x.eval env renv t = deriv (deriv (env "x")) t ∧
      projectileEquation.ode_y.eval env renv t = deriv (deriv (env "y")) t) ∧
    (∀ t : ℝ,
      fwdEqs.ode_x1.eval zeroEnv zeroEnv t = 0 ∧
      fwdEqs.ode_x2.eval zeroEnv zeroEnv t = 0 ∧
      fwdEqs.ode_x3.eval zeroEnv zeroEnv t = 0 ∧
      projectileEquation.ode_x.eval zeroEnv zeroEnv t = 0 ∧
      projectileEquation.ode_y.eval zeroEnv zeroEnv t = 0) ∧
    projInteriorOutvar = [("ode_x", 0), ("ode_y", -9.81)] ∧
    ((-9.81 : ℝ) ≠ 0) ∧
    smInteriorOutvar = [("ode_x1", 0), ("ode_x2", 0), ("ode_x3", 0)] := by
  have e1 : fwdEqs = smTemplate (.const 2) (.const 1) (.const 1) (.const 2)
      (.const 1) (.const 1) (.const 1) := rfl
  refine ⟨?_, ?_, rfl, by norm_num, rfl⟩
  · intro env renv t
    rw [e1]
    refine ⟨?_, ?_, ?_, ?_, ?_⟩ <;>
    · simp only [smTemplate, projectileEquation, SMExpr.eval]
      try push_cast
      try ring
  · intro t
    rw [e1]
    refine ⟨?_, ?_, ?_, ?_, ?_⟩ <;>
    · simp only [smTemplate, projectileEquation, SMExpr.eval, zeroEnv_app,
        deriv_const']
      try push_cast
      try ring


/-! ## Subterm-occurrence helper lemmas -/

theorem occurs_self (p : SMExpr) : p.occurs p = true := by
  cases p <;> simp [SMExpr.occurs]

theorem occurs_diff {p e : SMExpr} (h : p.occurs e = true) :
    p.occurs (.diff e) = true := by
  simp [SMExpr.occurs, h]

theorem occurs_add_left {p a b : SMExpr} (h : p.occurs a = true) :
    p.occurs (.add a b) = true := by
  simp [SMExpr.occurs, h]

theorem occurs_add_right {p a b : SMExpr} (h : p.occurs b = true) :
    p.occurs (.add a b) = true := by
  simp [SMExpr.occurs, h]

theorem occurs_sub_left {p a b : SMExpr} (h : p.occurs a = true) :
    p.occurs (.sub a b) = true := by
  simp [SMExpr.occurs, h]

theorem occurs_sub_right {p a b : SMExpr} (h : p.occurs b = true) :
    p.occurs (.sub a b) = true := by
  simp [SMExpr.occurs, h]

theorem occurs_mul_left {p a b : SMExpr} (h : p.occurs a = true) :
    p.occurs (.mul a b) = true := by
  simp [SMExpr.occurs, h]

theorem occurs_mul_right {p a b : SMExpr} (h : p.occurs b = true) :
    p.occurs (.mul a b) = true := by
  simp [SMExpr.occurs, h]

/-- C1: for every coefficient tuple, the dispatch sends an `int` or
`float` coefficient to the numeric constant of the same value (and
never to an unknown function), and a `str` coefficient to the unknown
function of that name (and never to a constant); each dispatched
coefficient occurs as a subexpression of the residual it parameterizes. -/
theorem coef_dispatch_and_occurrence (k1 k2 k3 k4 m1 m2 m3 : PyVal) :
    (∀ c ∈ [k1, k2, k3, k4, m1, m2, m3],
      (∀ n : ℤ, c = .pyInt n → pyCoef c = .const (n : ℚ)) ∧
      (∀ q : ℚ, c = .pyFloat q → pyCoef c = .const q) ∧
      (∀ s : String, c = .pyStr s → pyCoef c = .func s) ∧
      (∀ n : ℤ, c = .pyInt n → ∀ s : String, pyCoef c ≠ .func s) ∧
      (∀ q : ℚ, c = .pyFloat q → ∀ s : String, pyCoef c ≠ .func s) ∧
      (∀ s : String, c = .pyStr s → ∀ q : ℚ, pyCoef c ≠ .const q)) ∧
    ((pyCoef m1).occurs (springMass (k1, k2, k3, k4) (m1, m2, m3)).ode_x1
        = true ∧
      (pyCoef k1).occurs (springMass (k1, k2, k3, k4) (m1, m2, m3)).ode_x1
        = true ∧
      (pyCoef k2).occurs (springMass (k1, k2, k3, k4) (m1, m2, m3)).ode_x1
        = true ∧
      (pyCoef m2).occurs (springMass (k1, k2, k3, k4) (m1, m2, m3)).ode_x2
        = true ∧
      (pyCoef k2).occurs (springMass (k1, k2, k3, k4) (m1, m2, m3)).ode_x2
        = true ∧
      (pyCoef k3).occurs (springMass (k1, k2, k3, k4) (m1, m2, m3)).ode_x2
        = true ∧
      (pyCoef m3).occurs (springMass (k1, k2, k3, k4) (m1, m2, m3)).ode_x3
        = true ∧
      (pyCoef k3).occurs (springMass (k1, k2, k3, k4) (m1, m2, m3)).ode_x3
        = true ∧
      (pyCoef k4).occurs (springMass (k1, k2, k3, k4) (m1, m2, m3)).ode_x3
        = true) := by
  constructor
  · intro c _
    exact ⟨fun n hn => by subst hn; rfl,
      fun q hq => by subst hq; rfl,
      fun s hs => by subst hs; rfl,
      fun n hn s => by subst hn; simp [pyCoef],
      fun q hq s => by subst hq; simp [pyCoef],
      fun s hs q => by subst hs; simp [pyCoef]⟩
  · exact ⟨occurs_sub_left (occurs_add_left (occurs_mul_left (occurs_self _))),
      occurs_sub_left (occurs_add_right (occurs_mul_left (occurs_self _))),
      occurs_sub_right (occurs_mul_left (occurs_self _)),
      occurs_sub_left (occurs_add_left (occurs_mul_left (occurs_self _))),
      occurs_sub_left (occurs_add_right (occurs_mul_left (occurs_self _))),
      occurs_sub_right (occurs_mul_left (occurs_self _)),
      occurs_add_left (occurs_add_left (occurs_mul_left (occurs_self _))),
      occurs_add_left (occurs_add_right (occurs_mul_left (occurs_self _))),
      occurs_add_right (occurs_mul_left (occurs_self _))⟩

/-- Closed instance of `coef_dispatch_and_occurrence` at the inverse
coefficient tuple. -/
theorem coef_dispatch_and_occurrence_witness :
    pyCoef (.pyInt 2) = .const ((2 : ℤ) : ℚ) ∧
    pyCoef (.pyStr "k4") = .func "k4" ∧
    (pyCoef (.pyStr "m1")).occurs invEqs.ode_x1 = true := by
  have h := coef_dispatch_and_occurrence (.pyInt 2) (.pyInt 1) (.pyInt 1)
    (.pyStr "k4") (.pyStr "m1") (.pyInt 1) (.pyInt 1)
  exact ⟨(h.1 (.pyInt 2) (by simp)).1 2 rfl,
    (h.1 (.pyStr "k4") (by simp)).2.2.1 "k4" rfl,
    h.2.1⟩

/-- C3 counterexample: `SpringMass.__init__` has no `else` branch in its
coefficient dispatch, so a coefficient that is neither a `str` nor an
`int`/`float` (here a numpy scalar passed as `m1`) is not rejected:
construction succeeds and the raw object is embedded into the emitted
residual expression, contradicting the claimed fail-fast configuration
error. -/
theorem other_coefficient_embedded_counterexample :
    pyCoef (.pyOther "np.float64(1.0)") = .raw "np.float64(1.0)" ∧
    (springMass (.pyInt 2, .pyInt 1, .pyInt 1, .pyInt 2)
      (.pyOther "np.float64(1.0)", .pyInt 1, .pyInt 1)).ode_x1.rawTags
      = ["np.float64(1.0)"] := by
  constructor
  · rfl
  · rfl

/-- C3 amended: a coefficient that is neither a `str` nor an
`int`/`float` is not validated; the dispatch leaves it unchanged and it
is embedded as-is into the residual expression it parameterizes, with
no error signalled at construction. -/
theorem other_coefficient_passthrough (k1 k2 k3 k4 m1 m2 m3 : PyVal)
    (tag : String) :
    (k1 = .pyOther tag → pyCoef k1 = .raw tag ∧
      (SMExpr.raw tag).occurs
        (springMass (k1, k2, k3, k4) (m1, m2, m3)).ode_x1 = true) ∧
    (k2 = .pyOther tag → pyCoef k2 = .raw tag ∧
      (SMExpr.raw tag).occurs
        (springMass (k1, k2, k3, k4) (m1, m2, m3)).ode_x1 = true) ∧
    (k3 = .pyOther tag → pyCoef k3 = .raw tag ∧
      (SMExpr.raw tag).occurs
        (springMass (k1, k2, k3, k4) (m1, m2, m3)).ode_x2 = true) ∧
    (k4 = .pyOther tag → pyCoef k4 = .raw tag ∧
      (SMExpr.raw tag).occurs
        (springMass (k1, k2, k3, k4) (m1, m2, m3)).ode_x3 = true) ∧
    (m1 = .pyOther tag → pyCoef m1 = .raw tag ∧
      (SMExpr.raw tag).occurs
        (springMass (k1, k2, k3, k4) (m1, m2, m3)).ode_x1 = true) ∧
    (m2 = .pyOther tag → pyCoef m2 = .raw tag ∧
      (SMExpr.raw tag).occurs
        (springMass (k1, k2, k3, k4) (m1, m2, m3)).ode_x2 = true) ∧
    (m3 = .pyOther tag → pyCoef m3 = .raw tag ∧
      (SMExpr.raw tag).occurs
        (springMass (k1, k2, k3, k4) (m1, m2, m3)).ode_x3 = true) := by
  refine ⟨fun h => ?_, fun h => ?_, fun h => ?_, fun h => ?_, fun h => ?_,
    fun h => ?_, fun h => ?_⟩ <;> subst h <;> refine ⟨rfl, ?_⟩
  · exact occurs_sub_left (occurs_add_right (occurs_mul_left (occurs_self _)))
  · exact occurs_sub_right (occurs_mul_left (occurs_self _))
  · exact occurs_sub_right (occurs_mul_left (occurs_self _))
  · exact occurs_add_right (occurs_mul_left (occurs_self _))
  · exact occurs_sub_left (occurs_add_left (occurs_mul_left (occurs_self _)))
  · exact occurs_sub_left (occurs_add_left (occurs_mul_left (occurs_self _)))
  · exact occurs_add_left (occurs_add_left (occurs_mul_left (occurs_self _)))

/-- Closed instance of `other_coefficient_passthrough` with a boolean
coefficient in the `m1` slot. -/
theorem other_coefficient_passthrough_witness :
    pyCoef (.pyOther "True") = .raw "True" ∧
    (SMExpr.raw "True").occurs
      (springMass (.pyInt 2, .pyInt 1, .pyInt 1, .pyInt 2)
        (.pyOther "True", .pyInt 1, .pyInt 1)).ode_x1 = true :=
  (other_coefficient_passthrough (.pyInt 2) (.pyInt 1) (.pyInt 1) (.pyInt 2)
    (.pyOther "True") (.pyInt 1) (.pyInt 1) "True").2.2.2.2.1 rfl

/-- C6: the inverse instantiation `k=(2,1,1,"k4")`, `m=("m1",1,1)`
yields the same equation template as the forward case with exactly the
`m1` and `k4` argument slots changed from the constants `1` and `2` to
the unknown functions `m1` and `k4`; the middle residual is unchanged,
exactly two coefficient unknown-function terms appear overall, and the
remaining numeric coefficients are unchanged. -/
theorem inverse_replaces_m1_k4 :
    invEqs = smTemplate (.const 2) (.const 1) (.const 1) (.func "k4")
      (.func "m1") (.const 1) (.const 1) ∧
    fwdEqs = smTemplate (.const 2) (.const 1) (.const 1) (.const 2)
      (.const 1) (.const 1) (.const 1) ∧
    invEqs.ode_x2 = fwdEqs.ode_x2 ∧
    (invEqs.ode_x1.funcNames ++ invEqs.ode_x2.funcNames
        ++ invEqs.ode_x3.funcNames).filter
      (fun s => !(s == "x1" || s == "x2" || s == "x3")) = ["m1", "k4"] ∧
    (fwdEqs.ode_x1.funcNames ++ fwdEqs.ode_x2.funcNames
        ++ fwdEqs.ode_x3.funcNames).filter
      (fun s => !(s == "x1" || s == "x2" || s == "x3")) = [] ∧
    invEqs.ode_x1.constVals = [2, 1] ∧
    fwdEqs.ode_x1.constVals = [1, 2, 1] ∧
    invEqs.ode_x3.constVals = [1, 1] ∧
    fwdEqs.ode_x3.constVals = [1, 1, 2] := by
  refine ⟨rfl, rfl, rfl, rfl, rfl, ?_, ?_, ?_, ?_⟩ <;>
  · simp [invEqs, fwdEqs, springMass, smTemplate, pyCoef, SMExpr.constVals]
    try norm_num

/-- The grid claimed by the spec for the projectile validator:
the uniform deterministic grid over `[0, 5)` with step `0.01`. -/
noncomputable def specProjGrid : List ℝ :=
  (List.range 500).map (fun i : ℕ => (i : ℝ) * 0.01)

/-- C4: the projectile validation sample set is built on exactly the
uniform grid `t ∈ [0, 5)` with step `0.01`, and its target arrays are
exactly the closed-form `x(t) = 40·cos(π/3)·t` and
`y(t) = 40·sin(π/3)·t − 4.905·t²` evaluated pointwise on that grid. -/
theorem projectile_validator_exact :
    T_val = specProjGrid ∧
    X_val = specProjGrid.map (fun t => 40 * Real.cos (Real.pi / 3) * t) ∧
    Y_val = specProjGrid.map
      (fun t => 40 * Real.sin (Real.pi / 3) * t - 4.905 * t ^ 2) ∧
    projInvarNumpy = [("t", T_val)] ∧
    projOutvarNumpy = [("x", X_val), ("y", Y_val)] := by
  have h500 : (⌈((5 : ℚ) - 0) / (1/100)⌉).toNat = 500 :=
    arange_ceil_eq 0 5 (1/100) 500 (by norm_num)
  have hT : T_val = specProjGrid := by
    unfold T_val t_val specProjGrid arange
    rw [h500, List.map_map]
    refine List.map_congr_left (fun i _ => ?_)
    simp only [Function.comp_apply]
    push_cast
    norm_num
    ring
  refine ⟨hT, ?_, ?_, rfl, rfl⟩
  · unfold X_val
    rw [hT]
    refine List.map_congr_left (fun t _ => ?_)
    simp [v_o, theta]
  · unfold Y_val
    rw [hT]
    refine List.map_congr_left (fun t _ => ?_)
    simp only [v_o, theta]
    norm_num

/-- C7: a sample set whose parameterization pins `t` to `0` contains
exactly one distinct `t` value, namely `0`, for every nonzero requested
sample count. -/
theorem ic_sample_single_value (n : ℕ) (h : n ≠ 0) :
    (icSampleT n).dedup = [0] := by
  unfold icSampleT
  exact List.replicate_dedup h

/-- Closed instance of `ic_sample_single_value` at the configured IC
batch size 10. -/
theorem ic_sample_single_value_witness :
    (10 : ℕ) ≠ 0 ∧ (icSampleT 10).dedup = [0] :=
  ⟨by decide, ic_sample_single_value 10 (by decide)⟩

/-- C8: in each numpy-built sample set (projectile validator,
spring-mass forward validator, spring-mass inverse data set), every
target array has the same outer row count as every input array of the
same set. -/
theorem sample_set_row_counts :
    (∀ o ∈ projOutvarNumpy, ∀ i ∈ projInvarNumpy,
      o.2.length = i.2.length) ∧
    (∀ o ∈ smFwdOutvarNumpy, ∀ i ∈ smFwdInvarNumpy,
      o.2.length = i.2.length) ∧
    (∀ o ∈ smInvOutvarNumpy, ∀ i ∈ smInvInvarNumpy,
      o.2.length = i.2.length) := by
  refine ⟨?_, ?_, ?_⟩
  · intro o ho i hi
    simp only [projOutvarNumpy, List.mem_cons, List.not_mem_nil,
      or_false] at ho
    simp only [projInvarNumpy, List.mem_cons, List.not_mem_nil,
      or_false] at hi
    subst hi
    rcases ho with rfl | rfl <;> simp [X_val, Y_val]
  · intro o ho i hi
    simp only [smFwdOutvarNumpy, List.mem_cons, List.not_mem_nil,
      or_false] at ho
    simp only [smFwdInvarNumpy, List.mem_cons, List.not_mem_nil,
      or_false] at hi
    subst hi
    rcases ho with rfl | rfl | rfl <;> simp
  · intro o ho i hi
    simp only [smInvOutvarNumpy, List.mem_cons, List.not_mem_nil,
      or_false] at ho
    simp only [smInvInvarNumpy, List.mem_cons, List.not_mem_nil,
      or_false] at hi
    subst hi
    rcases ho with rfl | rfl | rfl | rfl | rfl | rfl <;> simp

/-- Closed instance of `sample_set_row_counts` at the projectile
validator's `x` target and `t` input. -/
theorem sample_set_row_counts_witness :
    (("x", X_val) ∈ projOutvarNumpy ∧ ("t", T_val) ∈ projInvarNumpy) ∧
    X_val.length = T_val.length :=
  ⟨⟨by simp [projOutvarNumpy], by simp [projInvarNumpy]⟩,
    sample_set_row_counts.1 ("x", X_val) (by simp [projOutvarNumpy])
      ("t", T_val) (by simp [projInvarNumpy])⟩

/-- C9: loading the validator bundle fails with a file-not-found error
exactly when the expected relative path is absent from the file system;
when present, the bundle is returned and the plotting cells render one
pred/true curve pair per dependent variable of the example's network
(`x`, `y` for the projectile; `x1`, `x2`, `x3` for the spring-mass). -/
theorem validator_load_and_plot (fs : String → Option Bundle) (b : Bundle) :
    (fs projValidatorPath = none →
      npLoad fs projValidatorPath
        = .error ("FileNotFoundError: No such file or directory: "
            ++ projValidatorPath)) ∧
    (fs projValidatorPath = some b →
      npLoad fs projValidatorPath = .ok b) ∧
    (fs smValidatorPath = none →
      npLoad fs smValidatorPath
        = .error ("FileNotFoundError: No such file or directory: "
            ++ smValidatorPath)) ∧
    (fs smValidatorPath = some b →
      npLoad fs smValidatorPath = .ok b) ∧
    projectilePlot.map CurvePair.label = ["x", "y"] ∧
    springMassPlot.map CurvePair.label = ["x1", "x2", "x3"] := by
  refine ⟨?_, ?_, ?_, ?_, rfl, rfl⟩ <;>
  · intro h
    simp [npLoad, h]

/-- Closed instance of `validator_load_and_plot`: an empty file system
makes the projectile load fail, a file system holding the spring-mass
bundle makes that load succeed. -/
theorem validator_load_and_plot_witness :
    npLoad (fun _ => none) projValidatorPath
      = .error ("FileNotFoundError: No such file or directory: "
          ++ projValidatorPath) ∧
    npLoad (fun p => if p = smValidatorPath then some [] else none)
      smValidatorPath = .ok [] :=
  ⟨(validator_load_and_plot (fun _ => none) []).1 rfl,
    (validator_load_and_plot
      (fun p => if p = smValidatorPath then some [] else none) []).2.2.2.1
      (by simp)⟩
